import Mathlib

/-!
Shallow embedding of the Spark Connect client core
(`crates/connect/src/client/mod.rs`): the execution-stream state machine,
the per-response dispatch onto the typed accumulator, the release
controller, the arrow-batch ingester and the tag set.

External collaborators (gRPC transport, Arrow IPC decoding) are modelled
as oracles: a `StreamScript` is the sequence of events one server stream
delivers, an `Env` supplies the answers to the successive stream-opening
and release RPCs, and every function returns the list of outbound
requests it issued alongside the updated client.  Rust panics
(`unwrap`, `expect`, `unimplemented`, out-of-bounds indexing) are a
distinct `Outcome.panicked` result, kept apart from `Err` returns.
-/

namespace SparkConnect

/-- Error type of the crate (`SparkError`), restricted to the variants the
client core can produce; transport-level failures (`tonic::Status`
converted via `From`) are modelled by the `transport` variant. -/
inductive SparkError where
  | analysisException (msg : String)
  | arrowError (msg : String)
  | transport (msg : String)
deriving DecidableEq, Repr

/-- Result of running a piece of Rust code: normal return, `Err` return,
or a panic (which in Rust unwinds and never returns to the caller). -/
inductive Outcome (α : Type) where
  | ok (a : α)
  | err (e : SparkError)
  | panicked (msg : String)
deriving DecidableEq, Repr

/-- `spark::UserContext`. -/
structure UserContext where
  user_id : String
  user_name : String
  extensions : List String := []
deriving DecidableEq, Repr

/-- A decoded Arrow record batch, abstracted to the two observables the
client core uses: its schema (opaque identifier) and its row count. -/
structure RecordBatch where
  schema : Nat
  num_rows : Nat
deriving DecidableEq, Repr

instance instDecEqExcept {ε α : Type} [DecidableEq ε] [DecidableEq α] :
    DecidableEq (Except ε α) := fun x y =>
  match x, y with
  | .error e₁, .error e₂ =>
    if h : e₁ = e₂ then .isTrue (congrArg Except.error h)
    else .isFalse (fun hc => h (Except.error.inj hc))
  | .error _, .ok _ => .isFalse (fun hc => Except.noConfusion hc)
  | .ok _, .error _ => .isFalse (fun hc => Except.noConfusion hc)
  | .ok a₁, .ok a₂ =>
    if h : a₁ = a₂ then .isTrue (congrArg Except.ok h)
    else .isFalse (fun hc => h (Except.ok.inj hc))

/-- The byte payload of an `ArrowBatch` response, abstracted to the result
of decoding it: `StreamReader::try_new` may fail (`malformed`), and each
iteration step yields either a batch or a decode error. -/
inductive ArrowData where
  | malformed (msg : String)
  | stream (items : List (Except String RecordBatch))
deriving DecidableEq, Repr

/-- `spark::execute_plan_response::ResponseType`: the polymorphic response
payload.  Command-result payloads are opaque to the core and modelled as
`Nat` values. -/
inductive ResponseType where
  | arrowBatch (data : ArrowData) (row_count : Int)
  | sqlCommandResult (v : Nat)
  | writeStreamOperationStartResult (v : Nat)
  | streamingQueryCommandResult (v : Nat)
  | getResourcesCommandResult (v : Nat)
  | streamingQueryManagerCommandResult (v : Nat)
  | resultComplete
  | extension (v : Nat)
deriving DecidableEq, Repr

/-- `spark::ExecutePlanResponse`; `schema` and `metrics` payloads are
opaque to the core and modelled as `Nat`. -/
structure ExecutePlanResponse where
  session_id : String
  operation_id : String
  response_id : String
  schema : Option Nat := none
  metrics : Option Nat := none
  response_type : Option ResponseType := none
deriving DecidableEq, Repr

/-- `ResponseHandler`: the typed accumulator for one operation, with the
same `Default` values as the Rust `#[derive(Default)]`. -/
structure ResponseHandler where
  metrics : Option Nat := none
  observed_metrics : Option Nat := none
  schema : Option Nat := none
  batches : List RecordBatch := []
  sql_command_result : Option Nat := none
  write_stream_operation_start_result : Option Nat := none
  streaming_query_command_result : Option Nat := none
  get_resources_command_result : Option Nat := none
  streaming_query_manager_command_result : Option Nat := none
  result_complete : Bool := false
  total_count : Int := 0
deriving DecidableEq, Repr

/-- `AnalyzeHandler`: the accumulator of the one-shot analyze RPC; payload
types opaque. -/
structure AnalyzeHandler where
  schema : Option Nat := none
  explain : Option String := none
  tree_string : Option String := none
  is_local : Option Bool := none
  is_streaming : Option Bool := none
  input_files : Option (List String) := none
  spark_version : Option String := none
  ddl_parse : Option Nat := none
  same_semantics : Option Bool := none
  semantic_hash : Option Int := none
  get_storage_level : Option Nat := none
deriving DecidableEq, Repr

/-- The slice of `ChannelBuilder` the client core reads: the session id
(a UUID, already rendered to a string), the optional user id and the
optional user agent. -/
structure ChannelBuilder where
  session_id : String
  user_id : Option String := none
  user_agent : Option String := none
deriving DecidableEq, Repr

/-- `SparkConnectClient<T>`, minus the RPC stub (whose behaviour the `Env`
oracle supplies). -/
structure SparkConnectClient where
  builder : ChannelBuilder
  session_id : String
  operation_id : Option String := none
  response_id : Option String := none
  handler : ResponseHandler := {}
  analyzer : AnalyzeHandler := {}
  user_context : Option UserContext := none
  tags : List String := []
  use_reattachable_execute : Bool := true
deriving DecidableEq, Repr

/-- `SparkConnectClient::new`. -/
def SparkConnectClient.new (builder : ChannelBuilder) : SparkConnectClient :=
  let user_ref := builder.user_id.getD ""
  { builder := builder
    session_id := builder.session_id
    operation_id := none
    response_id := none
    handler := {}
    analyzer := {}
    user_context := some { user_id := user_ref, user_name := user_ref, extensions := [] }
    tags := []
    use_reattachable_execute := true }

/-- An opaque query plan. -/
abbrev Plan := Nat

/-- `spark::execute_plan_request::RequestOption`. -/
inductive RequestOption where
  | reattachOptions (reattachable : Bool)
deriving DecidableEq, Repr

/-- `spark::ExecutePlanRequest`. -/
structure ExecutePlanRequest where
  session_id : String
  user_context : Option UserContext
  operation_id : Option String
  plan : Option Plan
  client_type : Option String
  request_options : List RequestOption
  tags : List String
deriving DecidableEq, Repr

/-- `spark::ReattachExecuteRequest`. -/
structure ReattachExecuteRequest where
  session_id : String
  user_context : Option UserContext
  operation_id : String
  client_type : Option String
  last_response_id : Option String
deriving DecidableEq, Repr

/-- `spark::release_execute_request::Release`. -/
inductive Release where
  | releaseAll
  | releaseUntil (response_id : String)
deriving DecidableEq, Repr

/-- `spark::ReleaseExecuteRequest`. -/
structure ReleaseExecuteRequest where
  session_id : String
  user_context : Option UserContext
  operation_id : String
  client_type : Option String
  release : Option Release
deriving DecidableEq, Repr

/-- `spark::ConfigRequest`; the config sub-operation and the response are
opaque to the core. -/
structure ConfigRequest where
  session_id : String
  user_context : Option UserContext
  client_type : Option String
  operation : Option Nat
deriving DecidableEq, Repr

/-- `spark::interrupt_request::InterruptType`. -/
inductive InterruptType where
  | all
  | tag
  | operationId
  | unspecified
deriving DecidableEq, Repr

/-- The protobuf enum values (`interrupt_type.into()`). -/
def InterruptType.toI32 : InterruptType → Int
  | .all => 1
  | .tag => 2
  | .operationId => 3
  | .unspecified => 0

/-- `spark::interrupt_request::Interrupt`. -/
inductive Interrupt where
  | operationTag (tag : String)
  | operationId (opId : String)
deriving DecidableEq, Repr

/-- `spark::InterruptRequest`. -/
structure InterruptRequest where
  session_id : String
  user_context : Option UserContext
  client_type : Option String
  interrupt_type : Int
  interrupt : Option Interrupt
deriving DecidableEq, Repr

/-- `SparkConnectClient::request_options`. -/
def request_options (c : SparkConnectClient) : List RequestOption :=
  if c.use_reattachable_execute then [RequestOption.reattachOptions true] else []

/-- `SparkConnectClient::execute_plan_request_with_metadata`.  The fresh
UUIDv4 is an input (`uuid`) instead of an effect. -/
def execute_plan_request_with_metadata (c : SparkConnectClient) (uuid : String) :
    ExecutePlanRequest × SparkConnectClient :=
  let c₁ := { c with operation_id := some uuid }
  ({ session_id := c.session_id
     user_context := c.user_context
     operation_id := some uuid
     plan := none
     client_type := c.builder.user_agent
     request_options := request_options c
     tags := c.tags }, c₁)

/-- `SparkConnectClient::validate_session`. -/
def validate_session (c : SparkConnectClient) (session_id : String) :
    Except SparkError Unit :=
  if c.builder.session_id ≠ session_id then
    .error (.analysisException
      ("Received incorrect session identifier for request: "
        ++ c.builder.session_id ++ " != " ++ session_id))
  else
    .ok ()

/-- The `as usize` cast applied to the advertised `row_count : i64`
before the comparison with `record.num_rows()` (64-bit two's-complement
wrap). -/
def usize_of_i64 (n : Int) : Nat := (n % (2 ^ 64)).toNat

/-- The `for batch in reader` loop body of `SparkConnectClient::deserialize`:
per decoded batch, fail on a decode error, fail on a row-count mismatch
with the framing error message, otherwise append the batch and add
`row_count` to `total_count`. -/
def deserialize_loop (c : SparkConnectClient) (row_count : Int) :
    List (Except String RecordBatch) → Outcome Unit × SparkConnectClient
  | [] => (.ok (), c)
  | .error e :: _ => (.err (.arrowError e), c)
  | .ok record :: rest =>
    if record.num_rows ≠ usize_of_i64 row_count then
      (.err (.arrowError
        ("Expected " ++ toString row_count ++ " rows in arrow batch but got "
          ++ toString record.num_rows)), c)
    else
      deserialize_loop
        { c with handler :=
            { c.handler with
                batches := c.handler.batches ++ [record]
                total_count := c.handler.total_count + row_count } }
        row_count rest

/-- `SparkConnectClient::deserialize`. -/
def deserialize (c : SparkConnectClient) (res : ArrowData) (row_count : Int) :
    Outcome Unit × SparkConnectClient :=
  match res with
  | .malformed e => (.err (.arrowError e), c)
  | .stream items => deserialize_loop c row_count items

/-- `SparkConnectClient::handle_response`: the per-message dispatch. -/
def handle_response (c : SparkConnectClient) (resp : ExecutePlanResponse) :
    Outcome Unit × SparkConnectClient :=
  match validate_session c resp.session_id with
  | .error e => (.err e, c)
  | .ok _ =>
    let c := { c with
      operation_id := some resp.operation_id
      response_id := some resp.response_id }
    let c := match resp.schema with
      | some s => { c with handler := { c.handler with schema := some s } }
      | none => c
    let c := match resp.metrics with
      | some m => { c with handler := { c.handler with metrics := some m } }
      | none => c
    match resp.response_type with
    | none => (.ok (), c)
    | some data =>
      match data with
      | .arrowBatch d row_count => deserialize c d row_count
      | .sqlCommandResult v =>
          (.ok (), { c with handler := { c.handler with sql_command_result := some v } })
      | .writeStreamOperationStartResult v =>
          (.ok (), { c with handler :=
            { c.handler with write_stream_operation_start_result := some v } })
      | .streamingQueryCommandResult v =>
          (.ok (), { c with handler :=
            { c.handler with streaming_query_command_result := some v } })
      | .getResourcesCommandResult v =>
          (.ok (), { c with handler :=
            { c.handler with get_resources_command_result := some v } })
      | .streamingQueryManagerCommandResult v =>
          (.ok (), { c with handler :=
            { c.handler with streaming_query_manager_command_result := some v } })
      | .resultComplete =>
          (.ok (), { c with handler := { c.handler with result_complete := true } })
      | .extension _ =>
          (.panicked "not implemented: extension response types are not implemented", c)

/-- `SparkConnectClient::validate_tag`; `tag.contains(',')` and
`tag.is_empty()` are expressed over the string's character list. -/
def validate_tag (tag : String) : Except SparkError Unit :=
  if tag.data.contains ',' then
    .error (.analysisException "Spark Connect tag can not contain ',' ")
  else if tag.data.isEmpty then
    .error (.analysisException "Spark Connect tag can not an empty string ")
  else
    .ok ()

/-- `SparkConnectClient::add_tag`. -/
def add_tag (c : SparkConnectClient) (tag : String) :
    Outcome Unit × SparkConnectClient :=
  match validate_tag tag with
  | .error e => (.err e, c)
  | .ok _ => (.ok (), { c with tags := c.tags ++ [tag] })

/-- `SparkConnectClient::remove_tag` (`Vec::retain` keeps the survivors in
order). -/
def remove_tag (c : SparkConnectClient) (tag : String) :
    Outcome Unit × SparkConnectClient :=
  match validate_tag tag with
  | .error e => (.err e, c)
  | .ok _ => (.ok (), { c with tags := c.tags.filter (fun t => t != tag) })

/-- `SparkConnectClient::clear_tags`. -/
def clear_tags (c : SparkConnectClient) : SparkConnectClient :=
  { c with tags := [] }

/-- `SparkConnectClient::config_request`: takes `&self`, builds the request
and forwards the server's reply verbatim.  The server's answer is the
`reply` oracle. -/
def config_request (c : SparkConnectClient) (operation : Nat)
    (reply : Except SparkError Nat) : Outcome Nat × SparkConnectClient :=
  let _req : ConfigRequest :=
    { session_id := c.session_id
      user_context := c.user_context
      client_type := c.builder.user_agent
      operation := some operation }
  match reply with
  | .ok resp => (.ok resp, c)
  | .error e => (.err e, c)

/-- `SparkConnectClient::interrupt_request`: takes `&self`; `Tag` and
`OperationId` with a missing `id_or_tag` panic via `expect`; `Unspecified`
fails before any RPC. -/
def interrupt_request (c : SparkConnectClient) (interrupt_type : InterruptType)
    (id_or_tag : Option String) (reply : Except SparkError Nat) :
    Outcome Nat × SparkConnectClient :=
  let req : InterruptRequest :=
    { session_id := c.session_id
      user_context := c.user_context
      client_type := c.builder.user_agent
      interrupt_type := 0
      interrupt := none }
  match interrupt_type with
  | .all =>
    let _req := { req with interrupt_type := InterruptType.toI32 .all }
    match reply with
    | .ok resp => (.ok resp, c)
    | .error e => (.err e, c)
  | .tag =>
    match id_or_tag with
    | none => (.panicked "Tag can not be empty", c)
    | some t =>
      let _req := { req with
        interrupt_type := InterruptType.toI32 .tag
        interrupt := some (.operationTag t) }
      match reply with
      | .ok resp => (.ok resp, c)
      | .error e => (.err e, c)
  | .operationId =>
    match id_or_tag with
    | none => (.panicked "Operation ID can not be empty", c)
    | some op =>
      let _req := { req with
        interrupt_type := InterruptType.toI32 .operationId
        interrupt := some (.operationId op) }
      match reply with
      | .ok resp => (.ok resp, c)
      | .error e => (.err e, c)
  | .unspecified =>
    (.err (.analysisException "Interrupt Type was not specified"), c)

/-- One event of a server response stream, as seen through
`stream.message().await`: a message, a graceful end (`Ok(None)`), or a
transport error. -/
inductive Terminal where
  | eof
  | terr (e : SparkError)
deriving DecidableEq, Repr

/-- A server stream: the messages it delivers in order, then how it ends. -/
structure StreamScript where
  msgs : List ExecutePlanResponse
  term : Terminal
deriving DecidableEq, Repr

/-- The transport oracle: the answers to the successive stream-opening
RPCs (`execute_plan` / `reattach_execute` dials, each either a stream or a
dial error) and to the successive `release_execute` RPCs, each consumed in
order.  An exhausted oracle answers with a transport error. -/
structure Env where
  streams : List (Except SparkError StreamScript)
  releases : List (Except SparkError Unit)
deriving DecidableEq, Repr

/-- An outbound request recorded in the trace. -/
inductive Request where
  | executePlan (req : ExecutePlanRequest)
  | reattach (req : ReattachExecuteRequest)
  | release (req : ReleaseExecuteRequest)
deriving DecidableEq, Repr

/-- Result of a stateful client step: the outcome, the client after the
step, the remaining oracle, and the outbound requests issued during the
step, in order. -/
abbrev StepResult (α : Type) := Outcome α × SparkConnectClient × Env × List Request

/-- The `ReattachExecuteRequest` built by `reattach_execute` from the
current client state. -/
def mkReattachRequest (c : SparkConnectClient) (op : String) : ReattachExecuteRequest :=
  { session_id := c.session_id
    user_context := c.user_context
    operation_id := op
    client_type := c.builder.user_agent
    last_response_id := c.response_id }

/-- The `ReleaseExecuteRequest` built by `release_execute`. -/
def mkReleaseRequest (c : SparkConnectClient) (op : String)
    (release : Option Release) : ReleaseExecuteRequest :=
  { session_id := c.session_id
    user_context := c.user_context
    operation_id := op
    client_type := c.builder.user_agent
    release := release }

/-- `SparkConnectClient::release_execute`: `operation_id.clone().unwrap()`
panics when no operation id is set; otherwise the request is sent and the
response body is ignored. -/
def release_execute (c : SparkConnectClient) (env : Env)
    (release : Option Release) : StepResult Unit :=
  match c.operation_id with
  | none => (.panicked "called Option::unwrap on a None value", c, env, [])
  | some op =>
    let req := mkReleaseRequest c op release
    match env.releases with
    | [] => (.err (.transport "connection refused"), c, ⟨env.streams, []⟩, [.release req])
    | ans :: rest =>
      match ans with
      | .ok _ => (.ok (), c, ⟨env.streams, rest⟩, [.release req])
      | .error e => (.err e, c, ⟨env.streams, rest⟩, [.release req])

/-- `SparkConnectClient::release_until`: `response_id.clone().unwrap()`
panics when no response id is recorded. -/
def release_until (c : SparkConnectClient) (env : Env) : StepResult Unit :=
  match c.response_id with
  | none => (.panicked "called Option::unwrap on a None value", c, env, [])
  | some rid => release_execute c env (some (.releaseUntil rid))

/-- `SparkConnectClient::release_all`. -/
def release_all (c : SparkConnectClient) (env : Env) : StepResult Unit :=
  release_execute c env (some .releaseAll)

/-- The `Ok(Some(msg))` arm of the `process_stream` loop, iterated:
each message goes through `handle_response`, whose failure aborts the
loop (the `?` propagates it without any release). -/
def process_msgs (c : SparkConnectClient) :
    List ExecutePlanResponse → Outcome Unit × SparkConnectClient
  | [] => (.ok (), c)
  | r :: rest =>
    match handle_response c r with
    | (.ok _, c₁) => process_msgs c₁ rest
    | (.err e, c₁) => (.err e, c₁)
    | (.panicked p, c₁) => (.panicked p, c₁)

mutual

/-- `SparkConnectClient::process_stream`, fuelled: drains one stream;
on a graceful end without completion in reattachable mode it reattaches;
on a transport error it issues a best-effort `ReleaseUntil` (whose own
failure the `?` propagates in place of the primary error) when in
reattachable mode with a recorded response id.  The fuel only bounds the
depth of the reattach recursion; the `process_stream` wrapper supplies a
budget that exceeds any possible depth. -/
def process_stream_f : Nat → SparkConnectClient → Env → StreamScript → StepResult Unit
  | 0, c, env, _ => (.panicked "reattach recursion budget exhausted", c, env, [])
  | fuel + 1, c, env, script =>
    match process_msgs c script.msgs with
    | (.ok _, c₁) =>
      match script.term with
      | .eof =>
        if c₁.use_reattachable_execute && !c₁.handler.result_complete then
          reattach_execute_f fuel c₁ env
        else
          (.ok (), c₁, env, [])
      | .terr e =>
        if c₁.use_reattachable_execute && c₁.response_id.isSome then
          match release_until c₁ env with
          | (.ok _, c₂, env₂, tr) => (.err e, c₂, env₂, tr)
          | (.err e₂, c₂, env₂, tr) => (.err e₂, c₂, env₂, tr)
          | (.panicked p, c₂, env₂, tr) => (.panicked p, c₂, env₂, tr)
        else
          (.err e, c₁, env, [])
    | (.err e, c₁) => (.err e, c₁, env, [])
    | (.panicked p, c₁) => (.panicked p, c₁, env, [])

/-- `SparkConnectClient::reattach_execute`, fuelled: builds the reattach
request from the stored operation id (`unwrap` panics when absent) and the
recorded `last_response_id`, dials, drives the new stream through
`process_stream`, and afterwards issues `ReleaseAll` when the operation
completed in reattachable mode. -/
def reattach_execute_f : Nat → SparkConnectClient → Env → StepResult Unit
  | 0, c, env => (.panicked "reattach recursion budget exhausted", c, env, [])
  | fuel + 1, c, env =>
    match c.operation_id with
    | none => (.panicked "called Option::unwrap on a None value", c, env, [])
    | some op =>
      let req := mkReattachRequest c op
      match env.streams with
      | [] => (.err (.transport "connection refused"), c, ⟨[], env.releases⟩, [.reattach req])
      | ans :: rest =>
        match ans with
        | .error e => (.err e, c, ⟨rest, env.releases⟩, [.reattach req])
        | .ok script =>
          match process_stream_f fuel c ⟨rest, env.releases⟩ script with
          | (.ok _, c₁, env₂, tr) =>
            if c₁.use_reattachable_execute && c₁.handler.result_complete then
              match release_all c₁ env₂ with
              | (out, c₂, env₃, tr₂) => (out, c₂, env₃, .reattach req :: (tr ++ tr₂))
            else
              (.ok (), c₁, env₂, .reattach req :: tr)
          | (.err e, c₁, env₂, tr) => (.err e, c₁, env₂, .reattach req :: tr)
          | (.panicked p, c₁, env₂, tr) => (.panicked p, c₁, env₂, .reattach req :: tr)

end

/-- Fuel budget sufficient for any run over `env`: each reattach consumes
one entry of `env.streams` and costs at most two fuel units. -/
def fuelFor (env : Env) : Nat := 2 * env.streams.length + 2

/-- `SparkConnectClient::process_stream` with the sufficient fuel budget. -/
def process_stream (c : SparkConnectClient) (env : Env) (script : StreamScript) :
    StepResult Unit :=
  process_stream_f (fuelFor env) c env script

/-- `SparkConnectClient::reattach_execute` with the sufficient fuel budget. -/
def reattach_execute (c : SparkConnectClient) (env : Env) : StepResult Unit :=
  reattach_execute_f (fuelFor env) c env

/-- `SparkConnectClient::execute_and_fetch`: dial `execute_plan`, reset the
accumulator, drain the stream, and issue `ReleaseAll` when the operation
completed in reattachable mode. -/
def execute_and_fetch (c : SparkConnectClient) (env : Env)
    (req : ExecutePlanRequest) : StepResult Unit :=
  match env.streams with
  | [] => (.err (.transport "connection refused"), c, ⟨[], env.releases⟩, [.executePlan req])
  | ans :: rest =>
    match ans with
    | .error e => (.err e, c, ⟨rest, env.releases⟩, [.executePlan req])
    | .ok script =>
      let c₁ := { c with handler := {} }
      match process_stream c₁ ⟨rest, env.releases⟩ script with
      | (.ok _, c₂, env₂, tr) =>
        if c₂.use_reattachable_execute && c₂.handler.result_complete then
          match release_all c₂ env₂ with
          | (out, c₃, env₃, tr₂) => (out, c₃, env₃, .executePlan req :: (tr ++ tr₂))
        else
          (.ok (), c₂, env₂, .executePlan req :: tr)
      | (.err e, c₂, env₂, tr) => (.err e, c₂, env₂, .executePlan req :: tr)
      | (.panicked p, c₂, env₂, tr) => (.panicked p, c₂, env₂, .executePlan req :: tr)

/-- The arrow `concat_batches` collaborator: concatenation against a given
schema, failing when some batch carries a different schema. -/
def concat_batches (schema : Nat) (batches : List RecordBatch) :
    Except String RecordBatch :=
  if batches.all (fun b => b.schema == schema) then
    .ok ⟨schema, (batches.map (fun b => b.num_rows)).sum⟩
  else
    .error "batches could not be concatenated: schema mismatch"

/-- `SparkConnectClient::to_arrow`: build the execute request (fresh
`uuid`), attach the plan, run `execute_and_fetch`, then concatenate
`handler.batches` against `batches[0].schema()`; the `[0]` index panics
when no batches were produced. -/
def to_arrow (c : SparkConnectClient) (uuid : String) (env : Env)
    (plan : Plan) : StepResult RecordBatch :=
  let rc := execute_plan_request_with_metadata c uuid
  let req := { rc.1 with plan := some plan }
  match execute_and_fetch rc.2 env req with
  | (.ok _, c₂, env₂, tr) =>
    match c₂.handler.batches with
    | [] => (.panicked "index out of bounds: the len is 0 but the index is 0", c₂, env₂, tr)
    | b :: bs =>
      match concat_batches b.schema (b :: bs) with
      | .ok rb => (.ok rb, c₂, env₂, tr)
      | .error e => (.err (.arrowError e), c₂, env₂, tr)
  | (.err e, c₂, env₂, tr) => (.err e, c₂, env₂, tr)
  | (.panicked p, c₂, env₂, tr) => (.panicked p, c₂, env₂, tr)

/-- Recognizer for `ReleaseAll` acknowledgements in the outbound trace. -/
def isReleaseAll : Request → Bool
  | .release req =>
    match req.release with
    | some .releaseAll => true
    | _ => false
  | _ => false

/-- Number of `ReleaseAll` acknowledgements in a trace. -/
def countReleaseAll (tr : List Request) : Nat := (tr.filter isReleaseAll).length

/-- Recognizer for `ReattachExecute` requests in the outbound trace. -/
def isReattach : Request → Bool
  | .reattach _ => true
  | _ => false

end SparkConnect

namespace SparkConnect

/-! ### Fixtures and derived state descriptions used by the theorems -/

/-- The client state after `deserialize` has ingested the batches `good`,
each advertised with `rc` rows: the batches are appended in order and
`total_count` grows by `rc` per batch. -/
def ingested (c : SparkConnectClient) (good : List RecordBatch) (rc : Int) :
    SparkConnectClient :=
  { c with handler :=
      { c.handler with
          batches := c.handler.batches ++ good
          total_count := c.handler.total_count + rc * good.length } }

/-- A server message carrying only the `ResultComplete` marker. -/
def completeResp (sid : String) : ExecutePlanResponse :=
  { session_id := sid
    operation_id := "op-srv"
    response_id := "resp-final"
    response_type := some ResponseType.resultComplete }

/-- The client state after accepting `completeResp sid`. -/
def completedClient (c : SparkConnectClient) : SparkConnectClient :=
  { c with
      operation_id := some "op-srv"
      response_id := some "resp-final"
      handler := { c.handler with result_complete := true } }

/-- Stream-opening answers for a run with `k` cut-off empty streams
followed by one stream that delivers the completion marker. -/
def streamsTail (sid : String) (k : Nat) : List (Except SparkError StreamScript) :=
  List.replicate k (Except.ok ⟨[], Terminal.eof⟩)
    ++ [Except.ok ⟨[completeResp sid], Terminal.eof⟩]

/-- A concrete builder for witness runs. -/
def builderW : ChannelBuilder := { session_id := "sess" }

/-- A concrete freshly-constructed client for witness runs. -/
def clientW : SparkConnectClient := SparkConnectClient.new builderW

/-- A client mid-operation: a stored operation id and a recorded
response id. -/
def clientOp : SparkConnectClient :=
  { clientW with operation_id := some "op1", response_id := some "r1" }

/-- `clientOp` with reattachable mode switched off. -/
def clientOpOff : SparkConnectClient :=
  { clientOp with use_reattachable_execute := false }

/-- The client state after accepting a metadata-only response with
operation id `"op-srv"` and response id `"r1"`. -/
def clientAfterR1 : SparkConnectClient :=
  { clientW with operation_id := some "op-srv", response_id := some "r1" }

/-- A fresh client that has already minted operation id `"op0"`. -/
def clientOp0 : SparkConnectClient := { clientW with operation_id := some "op0" }

/-- Oracle for one premature empty stream followed by the completing
stream, with two successful release answers. -/
def envC1 : Env := ⟨streamsTail "sess" 1, [Except.ok (), Except.ok ()]⟩

/-- The execute request minted by `clientOp0`. -/
def reqC1 : ExecutePlanRequest := (execute_plan_request_with_metadata clientOp0 "u1").1

/-- A response carrying one three-row arrow batch. -/
def batchResp : ExecutePlanResponse :=
  { session_id := "sess"
    operation_id := "op-srv"
    response_id := "r1"
    response_type := some (ResponseType.arrowBatch (.stream [Except.ok ⟨0, 3⟩]) 3) }

/-- Oracle for a run delivering one batch then completion. -/
def env9 : Env := ⟨[Except.ok ⟨[batchResp, completeResp "sess"], Terminal.eof⟩], [Except.ok ()]⟩

/-- Oracle for a run that completes without any batch. -/
def env9e : Env := ⟨[Except.ok ⟨[completeResp "sess"], Terminal.eof⟩], [Except.ok ()]⟩

/-- The client state at the end of the one-batch-then-complete run. -/
def c9final : SparkConnectClient :=
  { clientW with
      operation_id := some "op-srv"
      response_id := some "resp-final"
      handler := { batches := [⟨0, 3⟩], result_complete := true, total_count := 3 } }

/-- The outbound trace of the one-batch-then-complete run. -/
def c9trace : List Request :=
  [Request.executePlan { (execute_plan_request_with_metadata clientW "u1").1 with plan := some 0 },
   Request.release (mkReleaseRequest c9final "op-srv" (some Release.releaseAll))]

/-! ### Helper lemmas -/

/-- `deserialize_loop` only touches the accumulator: the recorded
`response_id` is unchanged. -/
theorem deserialize_loop_response_id (rc : Int) :
    ∀ (items : List (Except String RecordBatch)) (c : SparkConnectClient),
      ((deserialize_loop c rc items).2).response_id = c.response_id := by
  intro items
  induction items with
  | nil => intro c; rfl
  | cons item rest ih =>
    intro c
    cases item with
    | error e => rfl
    | ok record =>
      simp only [deserialize_loop]
      split
      · rfl
      · exact ih _

/-- `deserialize` leaves the recorded `response_id` unchanged. -/
theorem deserialize_response_id (c : SparkConnectClient) (d : ArrowData) (rc : Int) :
    ((deserialize c d rc).2).response_id = c.response_id := by
  cases d with
  | malformed e => rfl
  | stream items => exact deserialize_loop_response_id rc items c

/-- Every accepted response overwrites the recorded `response_id` with the
server's `response_id`. -/
theorem handle_response_ok_response_id (c c₁ : SparkConnectClient)
    (r : ExecutePlanResponse) (h : handle_response c r = (.ok (), c₁)) :
    c₁.response_id = some r.response_id := by
  unfold handle_response at h
  cases hv : validate_session c r.session_id with
  | error e => rw [hv] at h; simp at h
  | ok u =>
    rw [hv] at h
    cases hs : r.schema <;> cases hm : r.metrics <;> cases hrt : r.response_type <;>
        simp only [hs, hm, hrt] at h
    case' some.some.some d | some.none.some d | none.some.some d | none.none.some d =>
      cases d
    all_goals
      first
      | (obtain ⟨-, h₂⟩ := Prod.mk.injEq .. ▸ h
         exact h₂ ▸ rfl)
      | (have h₂ := congrArg SparkConnectClient.response_id (congrArg Prod.snd h)
         rw [deserialize_response_id] at h₂
         simp only at h₂
         exact h₂.symm)

/-- Appending well-sized batches: `deserialize_loop` over a prefix of
correctly-sized batches ingests them all and continues with the rest. -/
theorem deserialize_loop_append (rc : Int) :
    ∀ (good : List RecordBatch) (c : SparkConnectClient)
      (tail : List (Except String RecordBatch)),
      (∀ b ∈ good, b.num_rows = usize_of_i64 rc) →
      deserialize_loop c rc (good.map Except.ok ++ tail) =
        deserialize_loop (ingested c good rc) rc tail := by
  intro good
  induction good with
  | nil =>
    intro c tail _
    have : ingested c [] rc = c := by
      cases c with
      | mk builder sid op rid handler analyzer uc tags reatt =>
        cases handler
        simp [ingested]
    rw [this, List.map_nil, List.nil_append]
  | cons g gs ih =>
    intro c tail hgood
    have hg : g.num_rows = usize_of_i64 rc := hgood g (List.mem_cons_self g gs)
    have hgs : ∀ b ∈ gs, b.num_rows = usize_of_i64 rc :=
      fun b hb => hgood b (List.mem_cons_of_mem g hb)
    simp only [List.map_cons, List.cons_append, deserialize_loop, hg, ne_eq,
      not_true_eq_false, if_false, ite_false, List.append_eq]
    rw [ih _ tail hgs]
    have hcomp :
        ingested { c with handler :=
          { c.handler with
              batches := c.handler.batches ++ [g]
              total_count := c.handler.total_count + rc } } gs rc
          = ingested c (g :: gs) rc := by
      cases c with
      | mk builder sid op rid handler analyzer uc tags reatt =>
        cases handler
        simp [ingested, List.append_assoc]
        ring
    rw [hcomp]

end SparkConnect
namespace SparkConnect

/-- Defining equation of `process_stream_f` at a positive fuel budget. -/
theorem process_stream_f_succ (fuel : Nat) (c : SparkConnectClient) (env : Env)
    (script : StreamScript) :
    process_stream_f (fuel + 1) c env script =
      match process_msgs c script.msgs with
      | (.ok _, c₁) =>
        match script.term with
        | .eof =>
          if c₁.use_reattachable_execute && !c₁.handler.result_complete then
            reattach_execute_f fuel c₁ env
          else
            (.ok (), c₁, env, [])
        | .terr e =>
          if c₁.use_reattachable_execute && c₁.response_id.isSome then
            match release_until c₁ env with
            | (.ok _, c₂, env₂, tr) => (.err e, c₂, env₂, tr)
            | (.err e₂, c₂, env₂, tr) => (.err e₂, c₂, env₂, tr)
            | (.panicked p, c₂, env₂, tr) => (.panicked p, c₂, env₂, tr)
          else
            (.err e, c₁, env, [])
      | (.err e, c₁) => (.err e, c₁, env, [])
      | (.panicked p, c₁) => (.panicked p, c₁, env, []) := rfl

/-- Defining equation of `reattach_execute_f` at a positive fuel budget. -/
theorem reattach_execute_f_succ (fuel : Nat) (c : SparkConnectClient) (env : Env) :
    reattach_execute_f (fuel + 1) c env =
      match c.operation_id with
      | none => (.panicked "called Option::unwrap on a None value", c, env, [])
      | some op =>
        match env.streams with
        | [] => (.err (.transport "connection refused"), c, ⟨[], env.releases⟩,
            [.reattach (mkReattachRequest c op)])
        | ans :: rest =>
          match ans with
          | .error e => (.err e, c, ⟨rest, env.releases⟩, [.reattach (mkReattachRequest c op)])
          | .ok script =>
            match process_stream_f fuel c ⟨rest, env.releases⟩ script with
            | (.ok _, c₁, env₂, tr) =>
              if c₁.use_reattachable_execute && c₁.handler.result_complete then
                match release_all c₁ env₂ with
                | (out, c₂, env₃, tr₂) =>
                    (out, c₂, env₃, .reattach (mkReattachRequest c op) :: (tr ++ tr₂))
              else
                (.ok (), c₁, env₂, .reattach (mkReattachRequest c op) :: tr)
            | (.err e, c₁, env₂, tr) =>
                (.err e, c₁, env₂, .reattach (mkReattachRequest c op) :: tr)
            | (.panicked p, c₁, env₂, tr) =>
                (.panicked p, c₁, env₂, .reattach (mkReattachRequest c op) :: tr) := rfl

end SparkConnect
namespace SparkConnect

/-- A convenient restatement: the `process_stream` wrapper runs
`process_stream_f` at one more than a successor fuel value, so the
defining equation applies. -/
theorem process_stream_eq (c : SparkConnectClient) (env : Env) (script : StreamScript) :
    process_stream c env script =
      process_stream_f (2 * env.streams.length + 1 + 1) c env script := rfl

/-- C2: a response whose `session_id` differs from the client's fails
`handle_response` with the session-mismatch analysis error and leaves the
client — accumulator, command-result slots, `result_complete`,
`total_count`, stored `operation_id` and `response_id` — entirely
unchanged; the stream loop propagates that failure without issuing any
outbound request (in particular no release). -/
theorem c2_session_mismatch (c : SparkConnectClient) (resp : ExecutePlanResponse)
    (hsid : c.session_id = c.builder.session_id)
    (hne : resp.session_id ≠ c.session_id) :
    handle_response c resp =
      (.err (.analysisException ("Received incorrect session identifier for request: "
        ++ c.builder.session_id ++ " != " ++ resp.session_id)), c)
    ∧ ∀ (env : Env) (rest : List ExecutePlanResponse) (t : Terminal),
        process_stream c env ⟨resp :: rest, t⟩ =
          (.err (.analysisException ("Received incorrect session identifier for request: "
            ++ c.builder.session_id ++ " != " ++ resp.session_id)), c, env, []) := by
  have hcond : c.builder.session_id ≠ resp.session_id :=
    fun h => hne ((hsid.trans h).symm)
  have hval : validate_session c resp.session_id =
      .error (.analysisException ("Received incorrect session identifier for request: "
        ++ c.builder.session_id ++ " != " ++ resp.session_id)) := by
    unfold validate_session
    exact if_pos hcond
  have hhr : handle_response c resp =
      (.err (.analysisException ("Received incorrect session identifier for request: "
        ++ c.builder.session_id ++ " != " ++ resp.session_id)), c) := by
    unfold handle_response
    rw [hval]
  refine ⟨hhr, ?_⟩
  intro env rest t
  have hpm : process_msgs c (resp :: rest) =
      (.err (.analysisException ("Received incorrect session identifier for request: "
        ++ c.builder.session_id ++ " != " ++ resp.session_id)), c) := by
    unfold process_msgs
    rw [hhr]
  rw [process_stream_eq, process_stream_f_succ, hpm]

/-- C6: per decoded batch, `deserialize` compares the batch's row count
with the advertised `row_count`; batches that agree are appended in order
with `total_count` advanced by `row_count` each, and the first
disagreement fails with the framing error message, keeping the batches
ingested before it. -/
theorem c6_row_count_agreement (c : SparkConnectClient) (rc : Int)
    (good : List RecordBatch) (bad : RecordBatch)
    (rest : List (Except String RecordBatch))
    (h₀ : 0 ≤ rc) (h₁ : rc < 2 ^ 63)
    (hgood : ∀ b ∈ good, (b.num_rows : Int) = rc) :
    deserialize c (.stream (good.map Except.ok)) rc = (.ok (), ingested c good rc)
    ∧ ((bad.num_rows : Int) ≠ rc →
        deserialize c (.stream (good.map Except.ok ++ (Except.ok bad :: rest))) rc =
          (.err (.arrowError ("Expected " ++ toString rc ++ " rows in arrow batch but got "
            ++ toString bad.num_rows)), ingested c good rc)) := by
  have hwrap : usize_of_i64 rc = rc.toNat := by
    unfold usize_of_i64
    rw [Int.emod_eq_of_lt h₀ (lt_trans h₁ (by norm_num))]
  have hgood' : ∀ b ∈ good, b.num_rows = usize_of_i64 rc := by
    intro b hb
    have := hgood b hb
    omega
  constructor
  · have h := deserialize_loop_append rc good c [] hgood'
    rw [List.append_nil] at h
    show deserialize_loop c rc (good.map Except.ok) = (.ok (), ingested c good rc)
    rw [h]
    rfl
  · intro hbad
    have hbad' : bad.num_rows ≠ usize_of_i64 rc := by
      rw [hwrap]
      omega
    show deserialize_loop c rc (good.map Except.ok ++ (Except.ok bad :: rest)) = _
    rw [deserialize_loop_append rc good c _ hgood']
    simp only [deserialize_loop]
    rw [if_pos hbad']

/-- C6 witness: one well-sized batch is ingested; a following short batch
fails with the framing message. -/
theorem c6_witness :
    deserialize clientW (.stream ([(⟨0, 3⟩ : RecordBatch)].map Except.ok)) 3 =
        (.ok (), ingested clientW [⟨0, 3⟩] 3)
    ∧ deserialize clientW
        (.stream ([(⟨0, 3⟩ : RecordBatch)].map Except.ok ++ (Except.ok ⟨0, 2⟩ :: []))) 3 =
        (.err (.arrowError ("Expected " ++ toString (3 : Int) ++ " rows in arrow batch but got "
          ++ toString (2 : Nat))), ingested clientW [⟨0, 3⟩] 3) := by
  have h := c6_row_count_agreement clientW 3 [⟨0, 3⟩] ⟨0, 2⟩ [] (by norm_num) (by norm_num)
    (by intro b hb; simp at hb; rw [hb]; decide)
  exact ⟨h.1, h.2 (by decide)⟩

/-- C7 counterexample: a client carrying `response_id = some "r-old"` from
a previous operation keeps it when a new operation begins —
`execute_plan_request_with_metadata` mints the new operation id but does
not reset the recorded response id. -/
theorem c7_counterexample :
    ((execute_plan_request_with_metadata
        { clientW with response_id := some "r-old" } "u2").2).response_id = some "r-old"
    ∧ ((execute_plan_request_with_metadata
        { clientW with response_id := some "r-old" } "u2").2).operation_id = some "u2" :=
  ⟨rfl, rfl⟩

/-- C7 (amended): `response_id` is overwritten with the server's
`response_id` on every accepted response, but it is NOT reset when a new
operation begins: building a fresh execute request leaves whatever
`response_id` the previous operation recorded. -/
theorem c7_response_id_update :
    (∀ (c c₁ : SparkConnectClient) (r : ExecutePlanResponse),
        handle_response c r = (.ok (), c₁) → c₁.response_id = some r.response_id)
    ∧ (∀ (c : SparkConnectClient) (uuid : String),
        ((execute_plan_request_with_metadata c uuid).2).response_id = c.response_id) :=
  ⟨fun c c₁ r h => handle_response_ok_response_id c c₁ r h, fun _ _ => rfl⟩

/-- C7 witness: accepting the completion marker records its response id. -/
theorem c7_witness :
    (completedClient clientW).response_id = some "resp-final" :=
  c7_response_id_update.1 clientW (completedClient clientW) (completeResp "sess") rfl

/-- C8: `add_tag` rejects the empty tag and any tag containing a comma
and leaves the tag sequence unchanged; a valid tag is appended at the end
(duplicates permitted); `remove_tag` on a valid tag removes every equal
occurrence preserving the order of survivors; and the literal
add-add-remove sequence on `"x"` leaves an empty sequence. -/
theorem c8_tag_discipline (c : SparkConnectClient) (t : String) :
    add_tag c "" = (.err (.analysisException "Spark Connect tag can not an empty string "), c)
    ∧ add_tag c "a,b" = (.err (.analysisException "Spark Connect tag can not contain ',' "), c)
    ∧ (t.data.contains ',' = false → t.data.isEmpty = false →
        add_tag c t = (.ok (), { c with tags := c.tags ++ [t] })
        ∧ remove_tag c t = (.ok (), { c with tags := c.tags.filter (fun s => s != t) }))
    ∧ (c.tags = [] →
        (remove_tag (add_tag (add_tag c "x").2 "x").2 "x").2.tags = []) := by
  have he : validate_tag "" =
      .error (.analysisException "Spark Connect tag can not an empty string ") := by decide
  have hc : validate_tag "a,b" =
      .error (.analysisException "Spark Connect tag can not contain ',' ") := by decide
  have hx : validate_tag "x" = .ok () := by decide
  refine ⟨?_, ?_, ?_, ?_⟩
  · unfold add_tag
    rw [he]
  · unfold add_tag
    rw [hc]
  · intro h1 h2
    have hv : validate_tag t = .ok () := by
      unfold validate_tag
      rw [h1]
      simp [h2]
    constructor <;> simp [add_tag, remove_tag, hv]
  · intro h0
    simp only [add_tag, remove_tag, hx]
    simp [h0]

/-- C8 witness: the add-add-remove law applied to the concrete fresh
client and the valid tag `"y"`. -/
theorem c8_witness :
    add_tag clientW "y" = (.ok (), { clientW with tags := clientW.tags ++ ["y"] })
    ∧ (remove_tag (add_tag (add_tag clientW "x").2 "x").2 "x").2.tags = [] :=
  ⟨((c8_tag_discipline clientW "y").2.2.1 (by decide) (by decide)).1,
    (c8_tag_discipline clientW "y").2.2.2 rfl⟩

/-- C10: `config_request` and `interrupt_request` take the client by
shared reference and leave every piece of client state — session id,
operation id, response id, tags, response accumulator and analyze
accumulator — exactly as before the call, whatever the arguments and the
server's reply. -/
theorem c10_frame (c : SparkConnectClient) (op : Nat) (reply₁ : Except SparkError Nat)
    (it : InterruptType) (idt : Option String) (reply₂ : Except SparkError Nat) :
    (config_request c op reply₁).2 = c ∧ (interrupt_request c it idt reply₂).2 = c := by
  constructor
  · cases reply₁ <;> rfl
  · cases it <;> cases idt <;> cases reply₂ <;> rfl

end SparkConnect
namespace SparkConnect

/-- C2 witness: a fresh client rejects a response stamped with session
`"OTHER"`, unchanged, and the stream loop issues no request. -/
theorem c2_witness :
    handle_response clientW { session_id := "OTHER", operation_id := "o", response_id := "r" } =
      (.err (.analysisException ("Received incorrect session identifier for request: "
        ++ clientW.builder.session_id ++ " != " ++ "OTHER")), clientW)
    ∧ process_stream clientW ⟨[], []⟩
        ⟨[{ session_id := "OTHER", operation_id := "o", response_id := "r" }], .eof⟩ =
      (.err (.analysisException ("Received incorrect session identifier for request: "
        ++ clientW.builder.session_id ++ " != " ++ "OTHER")), clientW, ⟨[], []⟩, []) := by
  have h := c2_session_mismatch clientW
    { session_id := "OTHER", operation_id := "o", response_id := "r" } rfl (by decide)
  exact ⟨h.1, h.2 ⟨[], []⟩ [] .eof⟩

/-- When a run of accepted messages ends with `r`, the recorded
`response_id` is the one `r` carried. -/
theorem process_msgs_ok_last (r : ExecutePlanResponse) :
    ∀ (ms : List ExecutePlanResponse) (c c₁ : SparkConnectClient),
      process_msgs c (ms ++ [r]) = (.ok (), c₁) →
      c₁.response_id = some r.response_id := by
  intro ms
  induction ms with
  | nil =>
    intro c c₁ h
    simp only [List.nil_append, process_msgs] at h
    cases hh : handle_response c r with
    | mk out c₂ =>
      rw [hh] at h
      cases out with
      | ok a =>
        cases a
        simp only [process_msgs] at h
        obtain ⟨-, h₂⟩ := Prod.mk.injEq .. ▸ h
        rw [← h₂]
        exact handle_response_ok_response_id c c₂ r hh
      | err e => simp at h
      | panicked p => simp at h
  | cons m ms ih =>
    intro c c₁ h
    simp only [List.cons_append, process_msgs] at h
    cases hh : handle_response c m with
    | mk out c₂ =>
      rw [hh] at h
      cases out with
      | ok a => exact ih c₂ c₁ h
      | err e => simp at h
      | panicked p => simp at h

/-- Whatever the transport oracle answers, a `reattach_execute` call with
a stored operation id puts the `ReattachExecute` request built from the
current client state at the head of its outbound trace. -/
theorem reattach_trace_head (fuel : Nat) (c : SparkConnectClient) (env : Env)
    (op : String) (hop : c.operation_id = some op) :
    ∃ tr, (reattach_execute_f (fuel + 1) c env).2.2.2 =
      .reattach (mkReattachRequest c op) :: tr := by
  rw [reattach_execute_f_succ, hop]
  obtain ⟨streams, rels⟩ := env
  cases streams with
  | nil => exact ⟨[], rfl⟩
  | cons ans rest =>
    cases ans with
    | error e => exact ⟨[], rfl⟩
    | ok script =>
      rcases hps : process_stream_f fuel c ⟨rest, rels⟩ script with ⟨out, c₂, env₂, tr⟩
      cases out with
      | ok a =>
        by_cases hcond : (c₂.use_reattachable_execute && c₂.handler.result_complete) = true
        · exact ⟨tr ++ (release_all c₂ env₂).2.2.2, by simp [hps, hcond]⟩
        · exact ⟨tr, by simp [hps, hcond]⟩
      | err e => exact ⟨tr, by simp [hps]⟩
      | panicked p => exact ⟨tr, by simp [hps]⟩

/-- C3: when a stream ends (`Ok(None)`) with the accumulated state not
complete, in reattachable mode, the next outbound request is a
`ReattachExecute` built from the current operation id and the recorded
`last_response_id`, which is exactly the `response_id` of the last
processed response; with reattach mode off or after a completion marker
the loop ends with no outbound request at all. -/
theorem c3_reattach_resumption (c c₁ : SparkConnectClient)
    (streams : List (Except SparkError StreamScript))
    (rels : List (Except SparkError Unit))
    (msgs : List ExecutePlanResponse) (op : String)
    (hmsgs : process_msgs c msgs = (.ok (), c₁)) :
    (c₁.use_reattachable_execute = true →
      c₁.handler.result_complete = false →
      c₁.operation_id = some op →
      (∃ tr, (process_stream c ⟨streams, rels⟩ ⟨msgs, .eof⟩).2.2.2 =
          .reattach (mkReattachRequest c₁ op) :: tr)
      ∧ ∀ (ms : List ExecutePlanResponse) (r : ExecutePlanResponse),
          msgs = ms ++ [r] →
          (mkReattachRequest c₁ op).last_response_id = some r.response_id)
    ∧ ((c₁.use_reattachable_execute = false ∨ c₁.handler.result_complete = true) →
        process_stream c ⟨streams, rels⟩ ⟨msgs, .eof⟩ = (.ok (), c₁, ⟨streams, rels⟩, [])) := by
  constructor
  · intro hre hcmp hop
    constructor
    · rw [process_stream_eq, process_stream_f_succ, hmsgs]
      simp only [hre, hcmp, Bool.not_false, Bool.and_self, if_true]
      exact reattach_trace_head _ c₁ ⟨streams, rels⟩ op hop
    · intro ms r hm
      rw [hm] at hmsgs
      have hlast := process_msgs_ok_last r ms c c₁ hmsgs
      simp [mkReattachRequest, hlast]
  · intro hor
    rw [process_stream_eq, process_stream_f_succ, hmsgs]
    rcases hor with h | h
    · simp [h]
    · simp [h]

/-- C3 witness: after one accepted response `r1` and a premature EOF, the
next outbound request is `ReattachExecute` with the server-assigned
operation id and `last_response_id = r1`. -/
theorem c3_witness :
    (∃ tr, (process_stream { clientW with operation_id := some "op0" } ⟨[], []⟩
        ⟨[{ session_id := "sess", operation_id := "op-srv", response_id := "r1" }], .eof⟩).2.2.2 =
      .reattach (mkReattachRequest clientAfterR1 "op-srv") :: tr)
    ∧ (mkReattachRequest clientAfterR1 "op-srv").last_response_id = some "r1" := by
  have h := (c3_reattach_resumption { clientW with operation_id := some "op0" }
    clientAfterR1 [] []
    [{ session_id := "sess", operation_id := "op-srv", response_id := "r1" }] "op-srv"
    rfl).1 rfl rfl rfl
  exact ⟨h.1, h.2 [] _ rfl⟩

/-- C4 counterexample: with reattachable mode off, a mid-stream transport
error arriving while a `response_id` is recorded is returned with NO
`ReleaseUntil` (the outbound trace is empty), contradicting the claim as
stated. -/
theorem c4_counterexample :
    process_stream clientOpOff ⟨[], [.ok ()]⟩ ⟨[], .terr (.transport "boom")⟩ =
      (.err (.transport "boom"), clientOpOff, ⟨[], [.ok ()]⟩, []) := rfl

/-- C4 (amended): in reattachable mode, a mid-stream transport error with
a recorded `response_id` triggers `ReleaseUntil(response_id)` before the
transport error is returned; with no recorded `response_id` (and likewise
whenever reattachable mode is off) the error is returned with no release
request. -/
theorem c4_release_until_on_error :
    (∀ (c : SparkConnectClient) (streams : List (Except SparkError StreamScript))
        (rels : List (Except SparkError Unit)) (e : SparkError) (rid op : String),
      c.use_reattachable_execute = true →
      c.response_id = some rid →
      c.operation_id = some op →
      process_stream c ⟨streams, .ok () :: rels⟩ ⟨[], .terr e⟩ =
        (.err e, c, ⟨streams, rels⟩,
          [.release (mkReleaseRequest c op (some (.releaseUntil rid)))]))
    ∧ (∀ (c : SparkConnectClient) (env : Env) (e : SparkError),
        c.response_id = none →
        process_stream c env ⟨[], .terr e⟩ = (.err e, c, env, [])) := by
  constructor
  · intro c streams rels e rid op hre hrid hop
    have hru : release_until c ⟨streams, .ok () :: rels⟩ =
        (.ok (), c, ⟨streams, rels⟩,
          [.release (mkReleaseRequest c op (some (.releaseUntil rid)))]) := by
      unfold release_until
      rw [hrid]
      unfold release_execute
      rw [hop]
    rw [process_stream_eq, process_stream_f_succ]
    simp only [process_msgs]
    simp only [hre, hrid, Option.isSome_some, Bool.and_self, if_true]
    rw [hru]
  · intro c env e hrid
    rw [process_stream_eq, process_stream_f_succ]
    simp only [process_msgs]
    simp [hrid]

/-- C4 witness: the reattachable-mode release-until path at a concrete
client and a one-entry release oracle. -/
theorem c4_witness :
    process_stream clientOp ⟨[], .ok () :: []⟩ ⟨[], .terr (.transport "boom")⟩ =
      (.err (.transport "boom"), clientOp, ⟨[], []⟩,
        [.release (mkReleaseRequest clientOp "op1" (some (.releaseUntil "r1")))]) :=
  c4_release_until_on_error.1 clientOp [] [] (.transport "boom") "r1" "op1" rfl rfl rfl

/-- C5: at the failing input — a mid-stream transport error `"primary"`
followed by a failing `ReleaseUntil` RPC — the error returned to the
caller is the release failure, not the primary transport error: the `?`
on `release_until` overrides the original error, contradicting the
best-effort policy the specification states. -/
theorem c5_release_failure_overrides :
    process_stream clientOp ⟨[], [.error (.transport "release failed")]⟩
        ⟨[], .terr (.transport "primary")⟩ =
      (.err (.transport "release failed"), clientOp, ⟨[], []⟩,
        [.release (mkReleaseRequest clientOp "op1" (some (.releaseUntil "r1")))]) := rfl

end SparkConnect
namespace SparkConnect

/-- Length of the scripted stream list. -/
theorem streamsTail_length (sid : String) (k : Nat) :
    (streamsTail sid k).length = k + 1 := by
  simp [streamsTail]

/-- Accepting the completion marker sets `result_complete` and records the
server's operation and response ids. -/
theorem handle_complete (c : SparkConnectClient) (sid : String)
    (hsid : c.builder.session_id = sid) :
    handle_response c (completeResp sid) = (.ok (), completedClient c) := by
  have hval : validate_session c (completeResp sid).session_id = .ok () := by
    unfold validate_session completeResp
    simp [hsid]
  unfold handle_response
  rw [hval]
  rfl

/-- Draining a stream that delivers only the completion marker completes
the accumulator and triggers no reattach and no request. -/
theorem stream_complete (fuel : Nat) (c : SparkConnectClient) (sid : String)
    (extraS : List (Except SparkError StreamScript))
    (rels : List (Except SparkError Unit))
    (hsid : c.builder.session_id = sid) :
    process_stream_f (fuel + 1) c ⟨extraS, rels⟩ ⟨[completeResp sid], .eof⟩ =
      (.ok (), completedClient c, ⟨extraS, rels⟩, []) := by
  have hpm : process_msgs c [completeResp sid] = (.ok (), completedClient c) := by
    simp only [process_msgs, handle_complete c sid hsid]
  rw [process_stream_f_succ, hpm]
  simp [completedClient]

/-- Releasing after completion consumes one successful release answer and
issues exactly the `ReleaseAll` request. -/
theorem release_all_completed (c : SparkConnectClient)
    (extraS : List (Except SparkError StreamScript))
    (rels : List (Except SparkError Unit)) :
    release_all (completedClient c) ⟨extraS, Except.ok () :: rels⟩ =
      (.ok (), completedClient c, ⟨extraS, rels⟩,
        [.release (mkReleaseRequest (completedClient c) "op-srv" (some .releaseAll))]) := rfl

/-- A reattach chain over `k` empty cut-off streams followed by the
completing stream issues one `ReleaseAll` per recursion level: `k + 1`
acknowledgements in total. -/
theorem reattach_streams_tail (sid : String) :
    ∀ (k fuel : Nat) (c : SparkConnectClient)
      (extraS : List (Except SparkError StreamScript))
      (extraR : List (Except SparkError Unit)),
      2 * k + 2 ≤ fuel →
      c.use_reattachable_execute = true →
      c.operation_id.isSome = true →
      c.handler.result_complete = false →
      c.builder.session_id = sid →
      ∃ tr, reattach_execute_f fuel c
          ⟨streamsTail sid k ++ extraS, List.replicate (k + 1) (Except.ok ()) ++ extraR⟩ =
          (.ok (), completedClient c, ⟨extraS, extraR⟩, tr)
        ∧ countReleaseAll tr = k + 1 := by
  intro k
  induction k with
  | zero =>
    intro fuel c extraS extraR hfuel hre hop hcmp hsid
    obtain ⟨g, rfl⟩ : ∃ g, fuel = g + 1 + 1 := ⟨fuel - 2, by omega⟩
    obtain ⟨op, hopv⟩ := Option.isSome_iff_exists.mp hop
    have hcc : ((completedClient c).use_reattachable_execute &&
        (completedClient c).handler.result_complete) = true := by
      simp [completedClient, hre]
    refine ⟨.reattach (mkReattachRequest c op) ::
        ([] ++ [.release (mkReleaseRequest (completedClient c) "op-srv" (some .releaseAll))]),
      ?_, ?_⟩
    · show reattach_execute_f (g + 1 + 1) c
        ⟨Except.ok ⟨[completeResp sid], Terminal.eof⟩ :: extraS, Except.ok () :: extraR⟩ = _
      rw [reattach_execute_f_succ, hopv]
      simp [stream_complete g c sid extraS (Except.ok () :: extraR) hsid, hcc,
        release_all_completed]
    · simp [countReleaseAll, isReleaseAll, mkReleaseRequest]
  | succ k ih =>
    intro fuel c extraS extraR hfuel hre hop hcmp hsid
    obtain ⟨g, rfl⟩ : ∃ g, fuel = g + 1 := ⟨fuel - 1, by omega⟩
    obtain ⟨g₂, rfl⟩ : ∃ g₂, g = g₂ + 1 := ⟨g - 1, by omega⟩
    obtain ⟨op, hopv⟩ := Option.isSome_iff_exists.mp hop
    obtain ⟨trI, hinner, hcount⟩ :=
      ih g₂ c extraS (Except.ok () :: extraR) (by omega) hre hop hcmp hsid
    have hstr : streamsTail sid (k + 1) ++ extraS =
        Except.ok ⟨[], Terminal.eof⟩ :: (streamsTail sid k ++ extraS) := by
      simp [streamsTail, List.replicate_succ]
    have hrel : List.replicate (k + 1 + 1) (Except.ok ()) ++ extraR =
        List.replicate (k + 1) (Except.ok ()) ++ (Except.ok () :: extraR) := by
      rw [List.replicate_succ']
      simp [List.append_assoc]
    have hps : process_stream_f (g₂ + 1) c
        ⟨streamsTail sid k ++ extraS, List.replicate (k + 1) (Except.ok ()) ++ (Except.ok () :: extraR)⟩
        ⟨[], .eof⟩ =
        (.ok (), completedClient c, ⟨extraS, Except.ok () :: extraR⟩, trI) := by
      rw [process_stream_f_succ]
      simp only [process_msgs]
      simp only [hre, hcmp, Bool.not_false, Bool.and_self, if_true]
      exact hinner
    have hcc : ((completedClient c).use_reattachable_execute &&
        (completedClient c).handler.result_complete) = true := by
      simp [completedClient, hre]
    refine ⟨.reattach (mkReattachRequest c op) ::
        (trI ++ [.release (mkReleaseRequest (completedClient c) "op-srv" (some .releaseAll))]),
      ?_, ?_⟩
    · rw [hstr, hrel, reattach_execute_f_succ, hopv]
      simp [hps, hcc, release_all_completed]
    · have h₁ : countReleaseAll trI = k + 1 := hcount
      simp only [countReleaseAll, List.filter_cons, List.filter_append, List.length_append,
        isReleaseAll, mkReleaseRequest] at h₁ ⊢
      simp_all

end SparkConnect
namespace SparkConnect

/-- C1 counterexample: in reattachable mode, a run whose completion marker
arrives after ONE reattach (stream 1 ends empty without completion,
stream 2 delivers `ResultComplete`) succeeds but issues TWO `ReleaseAll`
acknowledgements — one in `reattach_execute`, one more in
`execute_and_fetch` — not exactly one as claimed. -/
theorem c1_counterexample :
    clientOp0.use_reattachable_execute = true
    ∧ (execute_and_fetch clientOp0 envC1 reqC1).1 = .ok ()
    ∧ (execute_and_fetch clientOp0 envC1 reqC1).2.1.handler.result_complete = true
    ∧ countReleaseAll (execute_and_fetch clientOp0 envC1 reqC1).2.2.2 = 2 :=
  ⟨rfl, rfl, rfl, rfl⟩

/-- C1 (amended): in reattachable mode, after a `ResultComplete` marker
the client issues `ReleaseAll` once per level of the
execute-and-fetch/reattach recursion: when completion arrives after `k`
reattaches (each cut-off stream having delivered no message), the run
succeeds and the outbound trace contains exactly `k + 1` `ReleaseAll`
acknowledgements — exactly one only in the no-reattach case `k = 0`. -/
theorem c1_release_per_level (sid : String) (k : Nat) (c : SparkConnectClient)
    (req : ExecutePlanRequest)
    (hre : c.use_reattachable_execute = true)
    (hop : c.operation_id.isSome = true)
    (hsid : c.builder.session_id = sid) :
    ∃ tr,
      execute_and_fetch c ⟨streamsTail sid k, List.replicate (k + 1) (Except.ok ())⟩ req =
        (.ok (), completedClient { c with handler := {} }, ⟨[], []⟩, tr)
      ∧ countReleaseAll tr = k + 1 := by
  cases k with
  | zero =>
    have hcc : ((completedClient { c with handler := {} }).use_reattachable_execute &&
        (completedClient { c with handler := {} }).handler.result_complete) = true := by
      simp [completedClient, hre]
    have hps : process_stream { c with handler := {} } ⟨[], [Except.ok ()]⟩
        ⟨[completeResp sid], .eof⟩ =
        (.ok (), completedClient { c with handler := {} }, ⟨[], [Except.ok ()]⟩, []) := by
      rw [process_stream_eq]
      exact stream_complete _ _ sid [] [Except.ok ()] hsid
    refine ⟨.executePlan req :: ([] ++ [.release (mkReleaseRequest
        (completedClient { c with handler := {} }) "op-srv" (some .releaseAll))]), ?_, ?_⟩
    · show execute_and_fetch c
        ⟨[Except.ok ⟨[completeResp sid], Terminal.eof⟩], [Except.ok ()]⟩ req = _
      unfold execute_and_fetch
      simp [hps, hcc, release_all_completed]
    · simp [countReleaseAll, isReleaseAll, mkReleaseRequest]
  | succ k =>
    obtain ⟨trI, hinner, hcount⟩ := reattach_streams_tail sid k (2 * k + 3)
      { c with handler := {} } [] [Except.ok ()] (by omega) hre hop rfl hsid
    rw [List.append_nil] at hinner
    rw [← List.replicate_succ'] at hinner
    have hps : process_stream { c with handler := {} }
        ⟨streamsTail sid k, List.replicate (k + 1 + 1) (Except.ok ())⟩ ⟨[], .eof⟩ =
        (.ok (), completedClient { c with handler := {} },
          ⟨[], [Except.ok ()]⟩, trI) := by
      rw [process_stream_eq, process_stream_f_succ]
      simp only [process_msgs]
      simp only [hre, Bool.not_false, Bool.and_self, if_true]
      have hlen : 2 * (⟨streamsTail sid k,
          List.replicate (k + 1 + 1) (Except.ok ())⟩ : Env).streams.length + 1 = 2 * k + 3 := by
        simp only [streamsTail_length]
        ring
      rw [hlen]
      simp only [hre] at hinner
      exact hinner
    have hcc : ((completedClient { c with handler := {} }).use_reattachable_execute &&
        (completedClient { c with handler := {} }).handler.result_complete) = true := by
      simp [completedClient, hre]
    refine ⟨.executePlan req :: (trI ++ [.release (mkReleaseRequest
        (completedClient { c with handler := {} }) "op-srv" (some .releaseAll))]), ?_, ?_⟩
    · show execute_and_fetch c
        ⟨Except.ok ⟨[], Terminal.eof⟩ :: streamsTail sid k,
          List.replicate (k + 1 + 1) (Except.ok ())⟩ req = _
      unfold execute_and_fetch
      simp [hps, hcc, release_all_completed]
    · have h₁ : countReleaseAll trI = k + 1 := hcount
      simp only [countReleaseAll, List.filter_cons, List.filter_append, List.length_append,
        isReleaseAll, mkReleaseRequest] at h₁ ⊢
      simp_all

/-- C1 witness: the amended law at `k = 1` on the concrete fixtures. -/
theorem c1_witness :
    ∃ tr,
      execute_and_fetch clientOp0 ⟨streamsTail "sess" 1, List.replicate 2 (Except.ok ())⟩ reqC1 =
        (.ok (), completedClient { clientOp0 with handler := {} }, ⟨[], []⟩, tr)
      ∧ countReleaseAll tr = 2 :=
  c1_release_per_level "sess" 1 clientOp0 reqC1 rfl rfl rfl

/-- C9 counterexample: when execution completes with zero batches,
`to_arrow` panics (out-of-bounds index on `batches[0]`) instead of
returning an error to the caller. -/
theorem c9_counterexample :
    (to_arrow clientW "u2" env9e 0).1 =
      .panicked "index out of bounds: the len is 0 but the index is 0" := rfl

/-- C9 (amended): after a successful execution, `to_arrow` returns the
concatenation of all accumulated batches against the first batch's
schema; when the execution produced zero batches it panics on the
`batches[0]` index rather than returning an error. -/
theorem c9_to_arrow (c : SparkConnectClient) (uuid : String) (env : Env) (plan : Plan)
    (c₂ : SparkConnectClient) (env₂ : Env) (tr : List Request)
    (hrun : execute_and_fetch (execute_plan_request_with_metadata c uuid).2 env
        { (execute_plan_request_with_metadata c uuid).1 with plan := some plan } =
      (.ok (), c₂, env₂, tr)) :
    (c₂.handler.batches = [] →
      to_arrow c uuid env plan =
        (.panicked "index out of bounds: the len is 0 but the index is 0", c₂, env₂, tr))
    ∧ (∀ (b : RecordBatch) (bs : List RecordBatch),
        c₂.handler.batches = b :: bs →
        to_arrow c uuid env plan =
          (match concat_batches b.schema (b :: bs) with
            | .ok rb => (.ok rb, c₂, env₂, tr)
            | .error e => (.err (.arrowError e), c₂, env₂, tr))) := by
  constructor
  · intro hempty
    simp only [to_arrow, hrun, hempty]
  · intro b bs hb
    simp only [to_arrow, hrun, hb]

/-- C9 witness: a run delivering one three-row batch then completion
yields the concatenated (single) batch. -/
theorem c9_witness :
    (to_arrow clientW "u1" env9 0).1 = .ok ⟨0, 3⟩ := by
  have h := (c9_to_arrow clientW "u1" env9 0 c9final ⟨[], []⟩ c9trace (by rfl)).2
    ⟨0, 3⟩ [] (by rfl)
  rw [h]
  rfl

end SparkConnect
